import Mathlib

/-
Verification of the Helpy backend (app.py): a Flask application exposing
CRUD endpoints over a Supabase table store.  The handlers are embedded as
pure Lean functions.  Each network call to the store (insert / select /
update / delete) is deterministic on an in-memory `Store`; a raised
exception from the client is modelled by an explicit `Option String`
parameter at each call site (`some msg` means the call raised an exception
whose string form is `msg`, `none` means it succeeded).  The uuid drawn by
`create_order` is modelled as an explicit `String` argument.
-/

/-- JSON-style scalar values carried in request bodies and table rows. -/
inductive Value where
  | vStr : String → Value
  | vNum : Int → Value
  | vBool : Bool → Value
  | vNull : Value
deriving DecidableEq, Repr

/-- Python truthiness of a value: None, "", 0 and False are falsy. -/
def Value.truthy : Value → Bool
  | .vStr s => s ≠ ""
  | .vNum n => n ≠ 0
  | .vBool b => b
  | .vNull => false

/-- Ordered association-list lookup: the Python dict read `d.get(k)` /
`d[k]`, returning the binding of the key, None when absent. -/
def alistGet {α β : Type} [DecidableEq α] : List (α × β) → α → Option β
  | [], _ => none
  | p :: rest, k => if p.1 = k then some p.2 else alistGet rest k

/-- Ordered association-list write: the Python dict assignment `d[k] = v`,
replacing the binding in place when the key exists, appending otherwise. -/
def alistSet {α β : Type} [DecidableEq α] (m : List (α × β)) (k : α) (v : β) :
    List (α × β) :=
  if (alistGet m k).isSome then
    m.map (fun p => if p.1 = k then (k, v) else p)
  else
    m ++ [(k, v)]

/-- A JSON object / table row: ordered association list of fields. -/
abbrev Row := List (String × Value)

/-- Python dict lookup `d.get(k)`: first binding of the key, None if absent. -/
def Row.get (r : Row) (key : String) : Option Value :=
  alistGet r key

/-- Python membership test `k in d`. -/
def Row.hasKey (r : Row) (key : String) : Bool :=
  (r.get key).isSome

/-- Truthiness of `d.get(k)`: false when the key is absent. -/
def Row.truthyGet (r : Row) (key : String) : Bool :=
  match r.get key with
  | some v => v.truthy
  | none => false

/-- Python dict assignment `d[k] = v`: replace the binding in place, or
append a fresh one at the end. -/
def Row.set (r : Row) (key : String) (v : Value) : Row :=
  alistSet r key v

/-- Apply a patch dict to a row, field by field (the semantics of an UPDATE
payload applied to one matching row). -/
def Row.patch (r : Row) (p : Row) : Row :=
  p.foldl (fun acc kv => acc.set kv.1 kv.2) r

/-- Python string slice `s[:n]`, taking the first `n` characters. -/
def pyTake (s : String) (n : Nat) : String :=
  String.mk (s.data.take n)

/-- The tables of the Supabase store that app.py touches. -/
structure Store where
  users : List Row
  orders : List Row
  tickets : List Row
  delivery_boys : List Row
  order_assignments : List Row
  settings : List Row
deriving DecidableEq, Repr

/-- The store with every table empty. -/
def emptyStore : Store :=
  ⟨[], [], [], [], [], []⟩

/-- A row matches a conjunction of equality filters (`q.eq(k, v)` chains). -/
def matchesFilters (filters : List (String × Value)) (r : Row) : Bool :=
  filters.all (fun kv => decide (r.get kv.1 = some kv.2))

/-- supabase_insert on one table: append the payload, return the new table
together with `res.data` (the list of inserted rows). -/
def supabase_insert (rows : List Row) (payload : Row) : List Row × List Row :=
  (rows ++ [payload], [payload])

/-- supabase_select on one table with equality filters: `res.data`. -/
def supabase_select (rows : List Row) (filters : List (String × Value)) : List Row :=
  rows.filter (matchesFilters filters)

/-- supabase_update on one table: patch every row matching the `where`
filters, return the new table together with `res.data` (the updated rows). -/
def supabase_update (rows : List Row) (w : List (String × Value)) (payload : Row) :
    List Row × List Row :=
  (rows.map (fun r => if matchesFilters w r then r.patch payload else r),
   (rows.filter (matchesFilters w)).map (fun r => r.patch payload))

/-- The delete call of the settings upsert: drop every row whose `key`
column equals the given value. -/
def supabase_delete_eq (rows : List Row) (col : String) (v : Value) : List Row :=
  rows.filter (fun r => decide (r.get col ≠ some v))

/-- An HTTP response body as serialized by jsonify. -/
inductive Body where
  | obj : Row → Body
  | rows : List Row → Body
  | kvmap : List (Value × Value) → Body
deriving DecidableEq, Repr

/-- jsonify({"error": msg}). -/
def errBody (msg : String) : Body :=
  .obj [("error", .vStr msg)]

/-- An HTTP response: status code and JSON body. -/
structure Response where
  status : Nat
  body : Body
deriving DecidableEq, Repr

/-- POST /users.  `insertErr` injects an exception from supabase_insert. -/
def create_user (s : Store) (data : Row) (insertErr : Option String) :
    Response × Store :=
  if !data.truthyGet "email" || !data.truthyGet "name" then
    (⟨400, errBody "name and email required"⟩, s)
  else
    match insertErr with
    | some e => (⟨500, errBody e⟩, s)
    | none =>
      let res := supabase_insert s.users data
      (⟨201, .rows res.2⟩, { s with users := res.1 })

/-- POST /orders.  `u` is the string form of the uuid4 drawn when the body
lacks a truthy tracking_id; `insertErr` injects an insert exception. -/
def create_order (s : Store) (data : Row) (u : String) (insertErr : Option String) :
    Response × Store :=
  if !(data.hasKey "customer_id" && data.hasKey "total_amount") then
    (⟨400, errBody "required fields: [customer_id, total_amount]"⟩, s)
  else
    let data := if data.truthyGet "tracking_id" then data
                else data.set "tracking_id" (.vStr (pyTake u 12))
    match insertErr with
    | some e => (⟨500, errBody e⟩, s)
    | none =>
      let res := supabase_insert s.orders data
      (⟨201, .rows res.2⟩, { s with orders := res.1 })

/-- GET /orders/(tracking_id).  `selErr` injects a select exception. -/
def get_order_by_tracking (s : Store) (tracking_id : String) (selErr : Option String) :
    Response × Store :=
  match selErr with
  | some e => (⟨500, errBody e⟩, s)
  | none =>
    match supabase_select s.orders [("tracking_id", .vStr tracking_id)] with
    | [] => (⟨404, errBody "order not found"⟩, s)
    | r :: _ => (⟨200, .obj r⟩, s)

/-- PUT /orders/id/(order_id)/status.  `updErr` injects an update exception. -/
def update_order_status (s : Store) (order_id : String) (data : Row)
    (updErr : Option String) : Response × Store :=
  match data.get "status" with
  | none => (⟨400, errBody "status required"⟩, s)
  | some v =>
    if !v.truthy then (⟨400, errBody "status required"⟩, s)
    else
      match updErr with
      | some e => (⟨500, errBody e⟩, s)
      | none =>
        let res := supabase_update s.orders [("id", .vStr order_id)] [("status", v)]
        (⟨200, .rows res.2⟩, { s with orders := res.1 })

/-- POST /tickets.  `insertErr` injects an insert exception; `webhook` is
the ZAPIER_WEBHOOK configuration and `webhookErr` injects an exception from
the outbound requests.post.  The third component of the result records the
webhook payloads actually delivered. -/
def create_ticket (s : Store) (data : Row) (insertErr : Option String)
    (webhook : Option String) (webhookErr : Option String) :
    Response × Store × List Row :=
  if !data.truthyGet "issue" || !data.truthyGet "order_id" then
    (⟨400, errBody "order_id and issue required"⟩, s, [])
  else
    match insertErr with
    | some e => (⟨500, errBody e⟩, s, [])
    | none =>
      let res := supabase_insert s.tickets data
      let s2 := { s with tickets := res.1 }
      match webhook with
      | none => (⟨201, .rows res.2⟩, s2, [])
      | some _ =>
        match webhookErr with
        | some _ => (⟨201, .rows res.2⟩, s2, [])
        | none => (⟨201, .rows res.2⟩, s2, [data])

/-- POST /assign_order.  `insertErr` injects an exception from the
assignment insert; `updErr` one from the delivery-boy status update, which
the handler catches and ignores. -/
def assign_order (s : Store) (data : Row) (insertErr updErr : Option String) :
    Response × Store :=
  if !data.truthyGet "order_id" || !data.truthyGet "delivery_boy_id" then
    (⟨400, errBody "order_id and delivery_boy_id required"⟩, s)
  else
    match insertErr with
    | some e => (⟨500, errBody e⟩, s)
    | none =>
      let res := supabase_insert s.order_assignments data
      let s1 := { s with order_assignments := res.1 }
      let boyId := (data.get "delivery_boy_id").getD .vNull
      match updErr with
      | some _ => (⟨201, .rows res.2⟩, s1)
      | none =>
        let upd := supabase_update s1.delivery_boys [("id", boyId)]
          [("status", .vStr "busy")]
        (⟨201, .rows res.2⟩, { s1 with delivery_boys := upd.1 })

/-- Python dict lookup on a Value-keyed dict. -/
def dictGet (m : List (Value × Value)) (k : Value) : Option Value :=
  alistGet m k

/-- Python dict assignment on a Value-keyed dict. -/
def dictSet (m : List (Value × Value)) (k v : Value) : List (Value × Value) :=
  alistSet m k v

/-- The dict comprehension of GET /admin/settings:
a key-to-value map built row by row, later rows shadowing earlier ones. -/
def settingsMap (rows : List Row) : List (Value × Value) :=
  rows.foldl
    (fun m r => dictSet m ((r.get "key").getD .vNull) ((r.get "value").getD .vNull)) []

/-- GET /admin/settings.  `selErr` injects a select exception; a stored row
without a `key` or `value` column would raise KeyError inside the
comprehension, caught by the same except branch. -/
def get_settings (s : Store) (selErr : Option String) : Response × Store :=
  match selErr with
  | some e => (⟨500, errBody e⟩, s)
  | none =>
    if s.settings.all (fun r => (r.get "key").isSome && (r.get "value").isSome) then
      (⟨200, .kvmap (settingsMap s.settings)⟩, s)
    else
      (⟨500, errBody "KeyError"⟩, s)

/-- POST /admin/settings: delete-then-insert upsert.  `delErr` injects an
exception from the delete call, `insErr` one from the following insert
(which fires after the delete has already removed the old rows). -/
def set_setting (s : Store) (data : Row) (delErr insErr : Option String) :
    Response × Store :=
  if !data.truthyGet "key" then
    (⟨400, errBody "key required"⟩, s)
  else
    match delErr with
    | some e => (⟨500, errBody e⟩, s)
    | none =>
      let k := (data.get "key").getD .vNull
      let v := (data.get "value").getD .vNull
      let deleted := supabase_delete_eq s.settings "key" k
      match insErr with
      | some e => (⟨500, errBody e⟩, { s with settings := deleted })
      | none =>
        let row : Row := [("key", k), ("value", v)]
        (⟨201, .obj row⟩, { s with settings := deleted ++ [row] })

/-- Run a sequence of successful POST /admin/settings requests, each with
body `{"key": p.1, "value": p.2}`, from a given store. -/
def applySettings (s : Store) (posts : List (Value × Value)) : Store :=
  posts.foldl (fun st p => (set_setting st [("key", p.1), ("value", p.2)] none none).2) s

/-- Lookup distributes over append, preferring the left list. -/
theorem alistGet_append {α β : Type} [DecidableEq α] (l₁ l₂ : List (α × β)) (k : α) :
    alistGet (l₁ ++ l₂) k = (alistGet l₁ k).or (alistGet l₂ k) := by
  induction l₁ with
  | nil => simp [alistGet]
  | cons p rest ih =>
    by_cases h : p.1 = k
    · simp [alistGet, h]
    · simp [alistGet, h, ih]

/-- Replacing the binding of a present key makes lookup return the new value. -/
theorem alistGet_map_replace {α β : Type} [DecidableEq α] (m : List (α × β)) (k : α) (v : β)
    (h : (alistGet m k).isSome = true) :
    alistGet (m.map (fun p => if p.1 = k then (k, v) else p)) k = some v := by
  induction m with
  | nil => simp [alistGet] at h
  | cons p rest ih =>
    by_cases hp : p.1 = k
    · simp [alistGet, hp]
    · simp only [alistGet, hp, if_false, if_neg hp] at h
      simp [alistGet, hp, ih h]

/-- Replacing the binding of one key leaves every other key's lookup alone. -/
theorem alistGet_map_replace_ne {α β : Type} [DecidableEq α] (m : List (α × β))
    (k k' : α) (v : β) (hne : k ≠ k') :
    alistGet (m.map (fun p => if p.1 = k then (k, v) else p)) k' = alistGet m k' := by
  induction m with
  | nil => simp [alistGet]
  | cons p rest ih =>
    by_cases hp : p.1 = k
    · simp [alistGet, hp, hne, ih]
    · simp only [List.map_cons, if_neg hp]
      by_cases hp' : p.1 = k'
      · simp [alistGet, hp']
      · simp [alistGet, hp', ih]

/-- Lookup after write at the written key. -/
theorem alistGet_set_self {α β : Type} [DecidableEq α] (m : List (α × β)) (k : α) (v : β) :
    alistGet (alistSet m k v) k = some v := by
  unfold alistSet
  split
  next h => exact alistGet_map_replace m k v h
  next h =>
    have h0 : alistGet m k = none := by
      cases hx : alistGet m k with
      | none => rfl
      | some w => rw [hx] at h; simp at h
    rw [alistGet_append, h0]
    simp [alistGet]

/-- Lookup after write at any other key. -/
theorem alistGet_set_ne {α β : Type} [DecidableEq α] (m : List (α × β)) (k k' : α) (v : β)
    (hne : k ≠ k') : alistGet (alistSet m k v) k' = alistGet m k' := by
  unfold alistSet
  split
  next => exact alistGet_map_replace_ne m k k' v hne
  next =>
    rw [alistGet_append]
    have h1 : alistGet [(k, v)] k' = none := by simp [alistGet, hne]
    rw [h1]
    cases alistGet m k' <;> simp

/-- Row lookup after a dict write at the written key. -/
theorem Row.get_set_self (r : Row) (k : String) (v : Value) :
    (r.set k v).get k = some v :=
  alistGet_set_self r k v

/-- Row lookup after a dict write at any other key. -/
theorem Row.get_set_ne (r : Row) (k k' : String) (v : Value) (hne : k ≠ k') :
    (r.set k v).get k' = r.get k' :=
  alistGet_set_ne r k k' v hne

/-- A one-field UPDATE payload applied to a row is a single dict write. -/
theorem Row.patch_single (r : Row) (k : String) (v : Value) :
    r.patch [(k, v)] = r.set k v := rfl

/-- A single equality filter reduces to one lookup comparison. -/
theorem matchesFilters_single (c : String) (w : Value) (r : Row) :
    matchesFilters [(c, w)] r = decide (r.get c = some w) := by
  simp [matchesFilters, Row.get]

/-- C1: for a POST /orders body with customer_id and total_amount, a body
without a truthy tracking_id gets a server-generated tracking_id of exactly
12 characters on the stored order, while a body that supplies a truthy
tracking_id is stored verbatim, its tracking_id preserved character for
character. -/
theorem create_order_tracking (s : Store) (dataG dataT : Row) (u : String)
    (hG1 : dataG.hasKey "customer_id" = true) (hG2 : dataG.hasKey "total_amount" = true)
    (hT1 : dataT.hasKey "customer_id" = true) (hT2 : dataT.hasKey "total_amount" = true)
    (hu : u.length = 36)
    (hG : dataG.truthyGet "tracking_id" = false)
    (hT : dataT.truthyGet "tracking_id" = true) :
    (∃ r t, (create_order s dataG u none).2.orders = s.orders ++ [r] ∧
      Row.get r "tracking_id" = some (.vStr t) ∧ t.length = 12) ∧
    (create_order s dataT u none).2.orders = s.orders ++ [dataT] := by
  constructor
  · refine ⟨dataG.set "tracking_id" (.vStr (pyTake u 12)), pyTake u 12, ?_, ?_, ?_⟩
    · simp [create_order, supabase_insert, hG1, hG2, hG]
    · exact Row.get_set_self dataG "tracking_id" (.vStr (pyTake u 12))
    · have h36 : u.data.length = 36 := hu
      simp [pyTake, String.length_mk, List.length_take, h36]
  · simp [create_order, supabase_insert, hT1, hT2, hT]

/-- Witness for C1 at concrete inputs: a body without tracking_id and one
with tracking_id "trk-77", against the empty store and a fixed uuid. -/
theorem create_order_tracking_witness :
    (∃ r t,
      (create_order emptyStore [("customer_id", .vStr "c1"), ("total_amount", .vNum 100)]
        "123e4567-e89b-12d3-a456-426614174000" none).2.orders = emptyStore.orders ++ [r] ∧
      Row.get r "tracking_id" = some (.vStr t) ∧ t.length = 12) ∧
    (create_order emptyStore
      [("customer_id", .vStr "c2"), ("total_amount", .vNum 5), ("tracking_id", .vStr "trk-77")]
      "123e4567-e89b-12d3-a456-426614174000" none).2.orders =
      emptyStore.orders ++
        [[("customer_id", .vStr "c2"), ("total_amount", .vNum 5),
          ("tracking_id", .vStr "trk-77")]] :=
  create_order_tracking emptyStore
    [("customer_id", .vStr "c1"), ("total_amount", .vNum 100)]
    [("customer_id", .vStr "c2"), ("total_amount", .vNum 5), ("tracking_id", .vStr "trk-77")]
    "123e4567-e89b-12d3-a456-426614174000"
    (by decide) (by decide) (by decide) (by decide) (by decide) (by decide) (by decide)

/-- C6: POST /users with a missing (or falsy) email or name answers 400 and
leaves the store untouched — regardless of the adapter, which is never
called. -/
theorem create_user_missing_field (s : Store) (data : Row) (e : Option String)
    (h : data.truthyGet "email" = false ∨ data.truthyGet "name" = false) :
    (create_user s data e).1.status = 400 ∧ (create_user s data e).2 = s := by
  rcases h with h | h <;> simp [create_user, h]

/-- Witness for C6: a body with an email but no name. -/
theorem create_user_missing_field_witness :
    (create_user emptyStore [("email", .vStr "a@b.c")] none).1.status = 400 ∧
    (create_user emptyStore [("email", .vStr "a@b.c")] none).2 = emptyStore :=
  create_user_missing_field emptyStore [("email", .vStr "a@b.c")] none (Or.inr (by decide))

/-- C7: GET /orders/(tracking_id) answers 404 when no stored order has that
tracking_id, leaving the store untouched. -/
theorem get_order_unknown_404 (s : Store) (tid : String)
    (h : ∀ r ∈ s.orders, Row.get r "tracking_id" ≠ some (.vStr tid)) :
    (get_order_by_tracking s tid none).1.status = 404 ∧
    (get_order_by_tracking s tid none).2 = s := by
  have hfil : supabase_select s.orders [("tracking_id", .vStr tid)] = [] := by
    rw [supabase_select, List.filter_eq_nil_iff]
    intro r hr
    rw [matchesFilters_single]
    simp [h r hr]
  simp [get_order_by_tracking, hfil]

/-- Witness for C7: lookup of "abc" in a store holding one order tracked
"zzz". -/
theorem get_order_unknown_404_witness :
    (get_order_by_tracking ⟨[], [[("tracking_id", .vStr "zzz")]], [], [], [], []⟩
      "abc" none).1.status = 404 ∧
    (get_order_by_tracking ⟨[], [[("tracking_id", .vStr "zzz")]], [], [], [], []⟩
      "abc" none).2 = ⟨[], [[("tracking_id", .vStr "zzz")]], [], [], [], []⟩ :=
  get_order_unknown_404 ⟨[], [[("tracking_id", .vStr "zzz")]], [], [], [], []⟩ "abc"
    (by decide)

/-- C9: when the ticket insert succeeds, POST /tickets answers 201 with the
inserted ticket and stores it, for every webhook configuration and every
webhook failure; the webhook never changes the status code or body. -/
theorem create_ticket_webhook_isolation (s : Store) (data : Row)
    (h1 : data.truthyGet "issue" = true) (h2 : data.truthyGet "order_id" = true)
    (webhook webhookErr : Option String) :
    (create_ticket s data none webhook webhookErr).1 = ⟨201, .rows [data]⟩ ∧
    (create_ticket s data none webhook webhookErr).2.1 =
      { s with tickets := s.tickets ++ [data] } := by
  cases webhook <;> cases webhookErr <;>
    simp [create_ticket, supabase_insert, h1, h2]

/-- Witness for C9: a concrete ticket with the webhook configured and the
outbound POST raising. -/
theorem create_ticket_webhook_isolation_witness :
    (create_ticket emptyStore [("order_id", .vStr "o1"), ("issue", .vStr "late")]
      none (some "https://hooks.example") (some "timeout")).1 =
      ⟨201, .rows [[("order_id", .vStr "o1"), ("issue", .vStr "late")]]⟩ ∧
    (create_ticket emptyStore [("order_id", .vStr "o1"), ("issue", .vStr "late")]
      none (some "https://hooks.example") (some "timeout")).2.1 =
      { emptyStore with
          tickets := emptyStore.tickets ++ [[("order_id", .vStr "o1"), ("issue", .vStr "late")]] } :=
  create_ticket_webhook_isolation emptyStore [("order_id", .vStr "o1"), ("issue", .vStr "late")]
    (by decide) (by decide) (some "https://hooks.example") (some "timeout")

/-- C10: when the assignment insert succeeds, POST /assign_order answers
201 with the inserted assignment even when the delivery-boy status update
raises; the failure is swallowed and the delivery_boys table is left as it
was. -/
theorem assign_order_swallows_update_error (s : Store) (data : Row) (e : String)
    (h1 : data.truthyGet "order_id" = true)
    (h2 : data.truthyGet "delivery_boy_id" = true) :
    (assign_order s data none (some e)).1 = ⟨201, .rows [data]⟩ ∧
    (assign_order s data none (some e)).2.order_assignments =
      s.order_assignments ++ [data] ∧
    (assign_order s data none (some e)).2.delivery_boys = s.delivery_boys := by
  simp [assign_order, supabase_insert, h1, h2]

/-- Witness for C10: a concrete assignment whose status update raises. -/
theorem assign_order_swallows_update_error_witness :
    (assign_order emptyStore [("order_id", .vStr "o1"), ("delivery_boy_id", .vStr "d1")]
      none (some "connection reset")).1 =
      ⟨201, .rows [[("order_id", .vStr "o1"), ("delivery_boy_id", .vStr "d1")]]⟩ ∧
    (assign_order emptyStore [("order_id", .vStr "o1"), ("delivery_boy_id", .vStr "d1")]
      none (some "connection reset")).2.order_assignments =
      emptyStore.order_assignments ++
        [[("order_id", .vStr "o1"), ("delivery_boy_id", .vStr "d1")]] ∧
    (assign_order emptyStore [("order_id", .vStr "o1"), ("delivery_boy_id", .vStr "d1")]
      none (some "connection reset")).2.delivery_boys = emptyStore.delivery_boys :=
  assign_order_swallows_update_error emptyStore
    [("order_id", .vStr "o1"), ("delivery_boy_id", .vStr "d1")] "connection reset"
    (by decide) (by decide)

/-- C3: PUT /orders/id/(order_id)/status with no truthy status answers 400
and performs no update; with a truthy status, after a successful request
every stored order whose id matches carries the supplied status. -/
theorem update_order_status_spec (s : Store) (oid : String) (dataMiss data : Row)
    (e : Option String) (v : Value) (r : Row)
    (hmiss : dataMiss.truthyGet "status" = false)
    (hv : data.get "status" = some v) (htr : v.truthy = true)
    (hr : r ∈ (update_order_status s oid data none).2.orders)
    (hid : Row.get r "id" = some (.vStr oid)) :
    (update_order_status s oid dataMiss e).1.status = 400 ∧
    (update_order_status s oid dataMiss e).2 = s ∧
    Row.get r "status" = some v := by
  refine ⟨?_, ?_, ?_⟩
  · cases hx : dataMiss.get "status" with
    | none => simp [update_order_status, hx]
    | some w =>
      have hw : w.truthy = false := by
        rw [Row.truthyGet, hx] at hmiss
        exact hmiss
      simp [update_order_status, hx, hw]
  · cases hx : dataMiss.get "status" with
    | none => simp [update_order_status, hx]
    | some w =>
      have hw : w.truthy = false := by
        rw [Row.truthyGet, hx] at hmiss
        exact hmiss
      simp [update_order_status, hx, hw]
  · have horders : (update_order_status s oid data none).2.orders =
        s.orders.map (fun x =>
          if matchesFilters [("id", .vStr oid)] x then x.patch [("status", v)] else x) := by
      simp [update_order_status, hv, htr, supabase_update]
    rw [horders] at hr
    obtain ⟨orig, hmem, heq⟩ := List.mem_map.mp hr
    by_cases hm : matchesFilters [("id", .vStr oid)] orig = true
    · rw [if_pos hm] at heq
      rw [← heq, Row.patch_single]
      exact Row.get_set_self orig "status" v
    · rw [if_neg hm] at heq
      rw [matchesFilters_single] at hm
      rw [← heq] at hid
      simp [hid] at hm

/-- Witness for C3: a store with one order of id "7", a 400 from an empty
body, and the updated row after setting status "shipped". -/
theorem update_order_status_spec_witness :
    (update_order_status ⟨[], [[("id", .vStr "7"), ("status", .vStr "new")]], [], [], [], []⟩
      "7" [] none).1.status = 400 ∧
    (update_order_status ⟨[], [[("id", .vStr "7"), ("status", .vStr "new")]], [], [], [], []⟩
      "7" [] none).2 = ⟨[], [[("id", .vStr "7"), ("status", .vStr "new")]], [], [], [], []⟩ ∧
    Row.get [("id", .vStr "7"), ("status", .vStr "shipped")] "status" =
      some (.vStr "shipped") :=
  update_order_status_spec ⟨[], [[("id", .vStr "7"), ("status", .vStr "new")]], [], [], [], []⟩
    "7" [] [("status", .vStr "shipped")] none (.vStr "shipped")
    [("id", .vStr "7"), ("status", .vStr "shipped")]
    (by decide) (by decide) (by decide) (by decide) (by decide)

/-- C4 counterexample: the delivery-boy status update of POST /assign_order
is wrapped in a bare except that discards the failure, so a 201 response
does not imply the delivery boy is busy: here the update raises and the
stored status stays "free". -/
theorem assign_order_busy_counterexample :
    (assign_order ⟨[], [], [], [[("id", .vStr "d1"), ("status", .vStr "free")]], [], []⟩
      [("order_id", .vStr "o1"), ("delivery_boy_id", .vStr "d1")]
      none (some "network down")).1.status = 201 ∧
    (assign_order ⟨[], [], [], [[("id", .vStr "d1"), ("status", .vStr "free")]], [], []⟩
      [("order_id", .vStr "o1"), ("delivery_boy_id", .vStr "d1")]
      none (some "network down")).2.delivery_boys =
      [[("id", .vStr "d1"), ("status", .vStr "free")]] := by
  decide

/-- C4 amended: when the assignment insert and the delivery-boy status
update both succeed, the response is 201 and every delivery_boys row whose
id equals the request's delivery_boy_id carries status "busy" afterwards. -/
theorem assign_order_sets_busy (s : Store) (data : Row) (bid : Value) (r : Row)
    (h1 : data.truthyGet "order_id" = true)
    (h2 : data.truthyGet "delivery_boy_id" = true)
    (hbid : data.get "delivery_boy_id" = some bid)
    (hr : r ∈ (assign_order s data none none).2.delivery_boys)
    (hid : Row.get r "id" = some bid) :
    (assign_order s data none none).1.status = 201 ∧
    Row.get r "status" = some (.vStr "busy") := by
  refine ⟨?_, ?_⟩
  · simp [assign_order, supabase_insert, h1, h2]
  · have hboys : (assign_order s data none none).2.delivery_boys =
        s.delivery_boys.map (fun x =>
          if matchesFilters [("id", bid)] x then x.patch [("status", .vStr "busy")] else x) := by
      simp [assign_order, supabase_insert, supabase_update, h1, h2, hbid]
    rw [hboys] at hr
    obtain ⟨orig, hmem, heq⟩ := List.mem_map.mp hr
    by_cases hm : matchesFilters [("id", bid)] orig = true
    · rw [if_pos hm] at heq
      rw [← heq, Row.patch_single]
      exact Row.get_set_self orig "status" (.vStr "busy")
    · rw [if_neg hm] at heq
      rw [matchesFilters_single] at hm
      rw [← heq] at hid
      simp [hid] at hm

/-- Witness for the amended C4: one delivery boy "d1", initially "free",
flipped to "busy" by a successful assignment. -/
theorem assign_order_sets_busy_witness :
    (assign_order ⟨[], [], [], [[("id", .vStr "d1"), ("status", .vStr "free")]], [], []⟩
      [("order_id", .vStr "o3"), ("delivery_boy_id", .vStr "d1")]
      none none).1.status = 201 ∧
    Row.get [("id", .vStr "d1"), ("status", .vStr "busy")] "status" =
      some (.vStr "busy") :=
  assign_order_sets_busy ⟨[], [], [], [[("id", .vStr "d1"), ("status", .vStr "free")]], [], []⟩
    [("order_id", .vStr "o3"), ("delivery_boy_id", .vStr "d1")] (.vStr "d1")
    [("id", .vStr "d1"), ("status", .vStr "busy")]
    (by decide) (by decide) (by decide) (by decide) (by decide)

/-- Selecting orders by a tracking_id that no row carries yields no rows. -/
theorem supabase_select_tracking_nil (rows : List Row) (tid : String)
    (h : ∀ r ∈ rows, Row.get r "tracking_id" ≠ some (.vStr tid)) :
    supabase_select rows [("tracking_id", .vStr tid)] = [] := by
  rw [supabase_select, List.filter_eq_nil_iff]
  intro r hr
  rw [matchesFilters_single]
  simp [h r hr]

/-- C2 counterexample: a valid POST /orders body that supplies a 3-character
tracking_id is accepted with 201, and the tracking_id in the response has
length 3, not 12. -/
theorem create_order_roundtrip_counterexample :
    (create_order emptyStore
      [("customer_id", .vStr "c1"), ("total_amount", .vNum 100), ("tracking_id", .vStr "abc")]
      "123e4567-e89b-12d3-a456-426614174000" none).1 =
      ⟨201, .rows [[("customer_id", .vStr "c1"), ("total_amount", .vNum 100),
        ("tracking_id", .vStr "abc")]]⟩ ∧
    ("abc" : String).length ≠ 12 := by
  decide

/-- C2 amended: for a valid POST /orders body without a truthy tracking_id,
and a generated token distinct from every stored order's tracking_id, the
response is 201 with a 12-character tracking_id and GET /orders of that
token returns 200 with the very order record that was stored. -/
theorem create_order_roundtrip (s : Store) (data : Row) (u : String)
    (h1 : data.hasKey "customer_id" = true) (h2 : data.hasKey "total_amount" = true)
    (hu : u.length = 36)
    (hno : data.truthyGet "tracking_id" = false)
    (hfresh : ∀ r ∈ s.orders, Row.get r "tracking_id" ≠ some (.vStr (pyTake u 12))) :
    (create_order s data u none).1.status = 201 ∧
    (create_order s data u none).1.body =
      .rows [data.set "tracking_id" (.vStr (pyTake u 12))] ∧
    (pyTake u 12).length = 12 ∧
    (get_order_by_tracking (create_order s data u none).2 (pyTake u 12) none).1 =
      ⟨200, .obj (data.set "tracking_id" (.vStr (pyTake u 12)))⟩ := by
  have hres : create_order s data u none =
      (⟨201, .rows [data.set "tracking_id" (.vStr (pyTake u 12))]⟩,
       { s with orders := s.orders ++ [data.set "tracking_id" (.vStr (pyTake u 12))] }) := by
    simp [create_order, supabase_insert, h1, h2, hno]
  refine ⟨by rw [hres], by rw [hres], ?_, ?_⟩
  · have h36 : u.data.length = 36 := hu
    simp [pyTake, String.length_mk, List.length_take, h36]
  · rw [hres]
    have hsel : supabase_select (s.orders ++ [data.set "tracking_id" (.vStr (pyTake u 12))])
        [("tracking_id", .vStr (pyTake u 12))] =
        [data.set "tracking_id" (.vStr (pyTake u 12))] := by
      rw [supabase_select, List.filter_append]
      have hnil : s.orders.filter (matchesFilters [("tracking_id", .vStr (pyTake u 12))]) = [] :=
        supabase_select_tracking_nil s.orders (pyTake u 12) hfresh
      rw [hnil]
      have hone : matchesFilters [("tracking_id", .vStr (pyTake u 12))]
          (data.set "tracking_id" (.vStr (pyTake u 12))) = true := by
        rw [matchesFilters_single]
        simp [Row.get_set_self]
      simp [hone]
    simp [get_order_by_tracking, hsel]

/-- Witness for the amended C2: the roundtrip on the empty store with a
concrete body and uuid. -/
theorem create_order_roundtrip_witness :
    (create_order emptyStore [("customer_id", .vStr "c1"), ("total_amount", .vNum 100)]
      "123e4567-e89b-12d3-a456-426614174000" none).1.status = 201 ∧
    (create_order emptyStore [("customer_id", .vStr "c1"), ("total_amount", .vNum 100)]
      "123e4567-e89b-12d3-a456-426614174000" none).1.body =
      .rows [Row.set [("customer_id", .vStr "c1"), ("total_amount", .vNum 100)]
        "tracking_id" (.vStr (pyTake "123e4567-e89b-12d3-a456-426614174000" 12))] ∧
    (pyTake "123e4567-e89b-12d3-a456-426614174000" 12).length = 12 ∧
    (get_order_by_tracking
      (create_order emptyStore [("customer_id", .vStr "c1"), ("total_amount", .vNum 100)]
        "123e4567-e89b-12d3-a456-426614174000" none).2
      (pyTake "123e4567-e89b-12d3-a456-426614174000" 12) none).1 =
      ⟨200, .obj (Row.set [("customer_id", .vStr "c1"), ("total_amount", .vNum 100)]
        "tracking_id" (.vStr (pyTake "123e4567-e89b-12d3-a456-426614174000" 12)))⟩ :=
  create_order_roundtrip emptyStore
    [("customer_id", .vStr "c1"), ("total_amount", .vNum 100)]
    "123e4567-e89b-12d3-a456-426614174000"
    (by decide) (by decide) (by decide) (by decide) (by decide)

/-- One successful settings POST replaces every row of the posted key by a
single fresh row appended at the end of the table. -/
theorem set_setting_step (s : Store) (k v : Value) (hk : k.truthy = true) :
    (set_setting s [("key", k), ("value", v)] none none).2 =
      { s with settings :=
          supabase_delete_eq s.settings "key" k ++ [[("key", k), ("value", v)]] } := by
  have hg : Row.truthyGet [("key", k), ("value", v)] "key" = k.truthy := rfl
  have hgk : Row.get [("key", k), ("value", v)] "key" = some k := rfl
  have hgv : Row.get [("key", k), ("value", v)] "value" = some v := rfl
  simp [set_setting, hg, hk, hgk, hgv]

/-- Deleting by key distributes over append. -/
theorem supabase_delete_eq_append (l₁ l₂ : List Row) (c : String) (v : Value) :
    supabase_delete_eq (l₁ ++ l₂) c v =
      supabase_delete_eq l₁ c v ++ supabase_delete_eq l₂ c v :=
  List.filter_append ..

/-- Deleting by key twice is the same as deleting once. -/
theorem supabase_delete_eq_idem (l : List Row) (c : String) (v : Value) :
    supabase_delete_eq (supabase_delete_eq l c v) c v = supabase_delete_eq l c v := by
  simp only [supabase_delete_eq, List.filter_filter]
  simp

/-- After a nonempty run of settings POSTs for one key, the settings table
is the old table cleansed of that key followed by one row holding the key
and the value of the last POST. -/
theorem applySettings_same_key (k lv : Value) (hk : k.truthy = true) :
    ∀ (vs : List Value) (v : Value) (s : Store), (v :: vs).getLast? = some lv →
    (applySettings s ((v :: vs).map (fun w => (k, w)))).settings =
      supabase_delete_eq s.settings "key" k ++ [[("key", k), ("value", lv)]] := by
  intro vs
  induction vs with
  | nil =>
    intro v s hlast
    simp at hlast
    subst hlast
    show (set_setting s [("key", k), ("value", v)] none none).2.settings = _
    rw [set_setting_step s k v hk]
  | cons w vs' ih =>
    intro v s hlast
    rw [List.getLast?_cons_cons] at hlast
    have hstep : applySettings s ((v :: w :: vs').map (fun x => (k, x))) =
        applySettings (set_setting s [("key", k), ("value", v)] none none).2
          ((w :: vs').map (fun x => (k, x))) := by
      simp [applySettings]
    rw [hstep, ih w _ hlast, set_setting_step s k v hk]
    show supabase_delete_eq (supabase_delete_eq s.settings "key" k ++
        [[("key", k), ("value", v)]]) "key" k ++ [[("key", k), ("value", lv)]] = _
    rw [supabase_delete_eq_append, supabase_delete_eq_idem]
    have hdrop : supabase_delete_eq [[("key", k), ("value", v)]] "key" k = [] := by
      have hgk : Row.get [("key", k), ("value", v)] "key" = some k := rfl
      simp [supabase_delete_eq, hgk]
    rw [hdrop, List.append_nil]

/-- C5: last write wins.  After any nonempty sequence of POST
/admin/settings requests for one key (over any store whose settings rows
are well formed), GET /admin/settings answers 200 with a map sending that
key to the value of the most recent POST, however many overwrites came
before. -/
theorem settings_last_write_wins (s : Store) (k lv : Value) (vs : List Value)
    (hk : k.truthy = true)
    (hwf : ∀ r ∈ s.settings,
      (Row.get r "key").isSome = true ∧ (Row.get r "value").isSome = true)
    (hlast : vs.getLast? = some lv) :
    (get_settings (applySettings s (vs.map (fun w => (k, w)))) none).1.status = 200 ∧
    ∃ m, (get_settings (applySettings s (vs.map (fun w => (k, w)))) none).1.body =
      .kvmap m ∧ dictGet m k = some lv := by
  cases vs with
  | nil => simp at hlast
  | cons v vs' =>
    have hset := applySettings_same_key k lv hk vs' v s hlast
    have hall : ((applySettings s ((v :: vs').map (fun w => (k, w)))).settings).all
        (fun r => (Row.get r "key").isSome && (Row.get r "value").isSome) = true := by
      rw [hset, List.all_append, Bool.and_eq_true]
      constructor
      · rw [List.all_eq_true]
        intro r hr
        have hmem : r ∈ s.settings := (List.mem_filter.mp hr).1
        obtain ⟨ha, hb⟩ := hwf r hmem
        rw [ha, hb]
        rfl
      · rw [List.all_eq_true]
        intro r hr
        rw [List.mem_singleton] at hr
        subst hr
        rfl
    have hget : get_settings (applySettings s ((v :: vs').map (fun w => (k, w)))) none =
        (⟨200, .kvmap (settingsMap
          ((applySettings s ((v :: vs').map (fun w => (k, w)))).settings))⟩,
         applySettings s ((v :: vs').map (fun w => (k, w)))) := by
      simp only [get_settings]
      rw [if_pos hall]
    have hmap : settingsMap ((applySettings s ((v :: vs').map (fun w => (k, w)))).settings) =
        dictSet (settingsMap (supabase_delete_eq s.settings "key" k)) k lv := by
      rw [hset]
      unfold settingsMap
      rw [List.foldl_append]
      have hgk : Row.get [("key", k), ("value", lv)] "key" = some k := rfl
      have hgv : Row.get [("key", k), ("value", lv)] "value" = some lv := rfl
      simp [hgk, hgv, dictSet]
    refine ⟨by rw [hget], settingsMap
      ((applySettings s ((v :: vs').map (fun w => (k, w)))).settings), by rw [hget], ?_⟩
    rw [hmap]
    exact alistGet_set_self (settingsMap (supabase_delete_eq s.settings "key" k)) k lv

/-- Witness for C5: the key "pricing" posted twice (values 1 then 2) on the
empty store; the GET map sends it to 2. -/
theorem settings_last_write_wins_witness :
    (get_settings (applySettings emptyStore
      ([Value.vNum 1, Value.vNum 2].map (fun w => (Value.vStr "pricing", w)))) none).1.status
      = 200 ∧
    ∃ m, (get_settings (applySettings emptyStore
      ([Value.vNum 1, Value.vNum 2].map (fun w => (Value.vStr "pricing", w)))) none).1.body =
      .kvmap m ∧ dictGet m (Value.vStr "pricing") = some (Value.vNum 2) :=
  settings_last_write_wins emptyStore (.vStr "pricing") (.vNum 2) [.vNum 1, .vNum 2]
    (by decide) (by decide) (by decide)

/-- C8 counterexample: the delivery-boy status update inside POST
/assign_order is a data-access call, yet its exception yields 201, not 500
with the raw exception string — the bare except swallows it. -/
theorem error_taxonomy_counterexample :
    (assign_order ⟨[], [], [], [[("id", .vStr "d2"), ("status", .vStr "free")]], [], []⟩
      [("order_id", .vStr "o9"), ("delivery_boy_id", .vStr "d2")]
      none (some "boom")).1.status = 201 ∧
    (assign_order ⟨[], [], [], [[("id", .vStr "d2"), ("status", .vStr "free")]], [], []⟩
      [("order_id", .vStr "o9"), ("delivery_boy_id", .vStr "d2")]
      none (some "boom")).1 ≠ ⟨500, errBody "boom"⟩ := by
  decide

/-- C8 amended: missing required fields yield 400, an empty by-key lookup
yields 404, and every data-access exception that the handler does not
swallow (all of them except the assign_order delivery-boy status update)
yields 500 with the raw exception string in the body. -/
theorem error_taxonomy (s : Store) (e : String) (u tid : String)
    (dMiss dUser dOrd dSet : Row)
    (hMiss : dMiss.truthyGet "email" = false ∨ dMiss.truthyGet "name" = false)
    (hU1 : dUser.truthyGet "email" = true) (hU2 : dUser.truthyGet "name" = true)
    (hO1 : dOrd.hasKey "customer_id" = true) (hO2 : dOrd.hasKey "total_amount" = true)
    (hS : dSet.truthyGet "key" = true)
    (hNo : ∀ r ∈ s.orders, Row.get r "tracking_id" ≠ some (.vStr tid)) :
    (create_user s dMiss none).1.status = 400 ∧
    (get_order_by_tracking s tid none).1.status = 404 ∧
    (create_user s dUser (some e)).1 = ⟨500, errBody e⟩ ∧
    (create_order s dOrd u (some e)).1 = ⟨500, errBody e⟩ ∧
    (get_order_by_tracking s tid (some e)).1 = ⟨500, errBody e⟩ ∧
    (set_setting s dSet none (some e)).1 = ⟨500, errBody e⟩ ∧
    (get_settings s (some e)).1 = ⟨500, errBody e⟩ := by
  refine ⟨?_, ?_, ?_, ?_, ?_, ?_, ?_⟩
  · rcases hMiss with h | h <;> simp [create_user, h]
  · simp [get_order_by_tracking, supabase_select_tracking_nil s.orders tid hNo]
  · simp [create_user, hU1, hU2]
  · simp [create_order, hO1, hO2]
  · rfl
  · simp [set_setting, hS]
  · rfl

/-- Witness for the amended C8 at concrete bodies and a concrete store. -/
theorem error_taxonomy_witness :
    (create_user emptyStore [("name", .vStr "n")] none).1.status = 400 ∧
    (get_order_by_tracking emptyStore "t0" none).1.status = 404 ∧
    (create_user emptyStore [("email", .vStr "a@b"), ("name", .vStr "n")]
      (some "db down")).1 = ⟨500, errBody "db down"⟩ ∧
    (create_order emptyStore [("customer_id", .vStr "c"), ("total_amount", .vNum 1)]
      "123e4567-e89b-12d3-a456-426614174000" (some "db down")).1 =
      ⟨500, errBody "db down"⟩ ∧
    (get_order_by_tracking emptyStore "t0" (some "db down")).1 =
      ⟨500, errBody "db down"⟩ ∧
    (set_setting emptyStore [("key", .vStr "plan"), ("value", .vStr "pro")] none
      (some "db down")).1 = ⟨500, errBody "db down"⟩ ∧
    (get_settings emptyStore (some "db down")).1 = ⟨500, errBody "db down"⟩ :=
  error_taxonomy emptyStore "db down" "123e4567-e89b-12d3-a456-426614174000" "t0"
    [("name", .vStr "n")] [("email", .vStr "a@b"), ("name", .vStr "n")]
    [("customer_id", .vStr "c"), ("total_amount", .vNum 1)]
    [("key", .vStr "plan"), ("value", .vStr "pro")]
    (Or.inl (by decide)) (by decide) (by decide) (by decide) (by decide) (by decide)
    (by decide)
